import Mathlib

/-! Verification of the payment-processing service of the rent-management system.

The development shallowly embeds the code of the repository:
- src/app/models/payment.py        (Payment, PaymentStatus)
- src/app/schemas/payment.py       (request and response shapes)
- src/app/routers/payments.py      (initiate_payment, chapa_webhook,
                                    timeout_pending_payments)
- src/app/services/chapa.py        (ChapaService.initialize_payment amount
                                    override, verify_webhook_signature)
- src/app/dependencies/auth.py     (get_api_key, get_optional_user,
                                    get_authenticated_entity)
- src/app/config.py                (Settings)

Stateful code is embedded as explicit state passing: each operation takes the
persisted store (a list of Payment rows) and returns the new store together
with the HTTP-level result and a trace of the external effects it performed
(remote user lookups, gateway calls, store reads and writes, downstream
notifications). Remote outcomes (the user-management service, the Chapa
gateway, JWT resolution) are environment parameters, since their bodies are
network calls. UUIDs are modelled as naturals, timestamps as naturals, the
decimal amount as an integer; none of the claims depends on the finer
structure of those types.
-/

namespace PaymentService

/-- PaymentStatus from src/app/models/payment.py. -/
inductive PaymentStatus
  | PENDING
  | SUCCESS
  | FAILED
deriving DecidableEq, Repr

/-- The persisted Payment row from src/app/models/payment.py. The id,
request_id, property_id and user_id columns are UUIDs, modelled as naturals;
created_at, updated_at, approved_at are timestamps, modelled as naturals;
amount is DECIMAL(10,2), modelled as an integer. -/
structure Payment where
  id : Nat
  request_id : Nat
  property_id : Nat
  user_id : Nat
  amount : Int
  status : PaymentStatus
  chapa_tx_ref : String
  failure_reason : Option String
  created_at : Nat
  updated_at : Nat
  approved_at : Option Nat
deriving DecidableEq, Repr

/-- The payments table. -/
abbrev Store := List Payment

/-- External effects an operation performs, in order. storeRead and storeWrite
cover only the payments table; userLookup is the call to the user-management
service; gatewayInit and gatewayVerify are the Chapa calls; notify is the call
to the property-listing service. -/
inductive Effect
  | userLookup
  | gatewayInit
  | gatewayVerify
  | storeRead
  | storeWrite
  | notify
deriving DecidableEq, Repr

/-- An HTTPException: status code and detail string. -/
structure HErr where
  code : Nat
  detail : String
deriving DecidableEq, Repr

/-- PaymentCreate from src/app/schemas/payment.py (pydantic validates
amount with ge=0; that validation is a hypothesis where needed). -/
structure PaymentCreate where
  request_id : Nat
  property_id : Nat
  user_id : Nat
  amount : Int
deriving DecidableEq, Repr

/-- UserAuthResponse from src/app/schemas/payment.py. -/
structure UserAuthResponse where
  user_id : Nat
  role : String
  email : String
  phone_number : Option String
  preferred_language : Option String
deriving DecidableEq, Repr

/-- NotificationPayload from src/app/schemas/payment.py, as produced by
get_user_details_for_notification (phone_number may be the empty string when
the user-management service has none). Only the fields initiate_payment uses
are kept. -/
structure NotificationPayload where
  user_id : Nat
  email : String
  phone_number : String
  preferred_language : String
deriving DecidableEq, Repr

/-- ChapaInitializeRequest from src/app/schemas/payment.py (fields relevant
to the claims). -/
structure ChapaInitRequest where
  amount : String
  currency : String
  email : String
  phone_number : String
  tx_ref : String
deriving DecidableEq, Repr

/-- ChapaInitializeResponse: message, status, and data.checkout_url
extracted with .get (hence optional). -/
structure ChapaInitResponse where
  message : String
  status : String
  checkout_url : Option String
deriving DecidableEq, Repr

/-- ChapaVerifyResponse: message, status, and data.status extracted with
.get (hence optional). -/
structure ChapaVerifyResponse where
  message : String
  status : String
  data_status : Option String
deriving DecidableEq, Repr

/-- PaymentResponse from src/app/schemas/payment.py, with the fields the
router actually populates (request_id has a random pydantic default and
failure_reason and approved_at are never passed by the router, so they are
omitted). -/
structure PaymentResponse where
  id : Nat
  property_id : Nat
  user_id : Nat
  amount : Int
  status : PaymentStatus
  chapa_tx_ref : Option String
  checkout_url : Option String
  created_at : Nat
  updated_at : Nat
deriving DecidableEq, Repr

/-- The fixed mask returned in place of the stored gateway reference
(string literal in src/app/routers/payments.py). -/
def maskedRef : String := "********"

/-- Truthiness of an optional string, as Python evaluates
`if not x` on None or a string: present means some and non-empty. -/
def presentStr : Option String → Bool
  | none => false
  | some s => !(s == "")

/-- Find a payment by request_id (the idempotency SELECT in
initiate_payment). -/
def lookupByRequestId (st : Store) (rid : Nat) : Option Payment :=
  st.find? (fun p => p.request_id == rid)

/-- Find a payment by chapa_tx_ref (the webhook SELECT). -/
def lookupByTxRef (st : Store) (ref : String) : Option Payment :=
  st.find? (fun p => p.chapa_tx_ref == ref)

/-- Commit of a mutated row: replace the row with the given id. -/
def updateById (st : Store) (pid : Nat) (newP : Payment) : Store :=
  st.map (fun q => if q.id = pid then newP else q)

/-- Environment of one initiate_payment call: outcome of the remote
user-detail lookup, outcome of the Chapa initialize call, the generated
transaction reference and row id, the clock, and settings.FIXED_AMOUNT. -/
structure InitEnv where
  userLookup : Nat → Option NotificationPayload
  gatewayInit : Except HErr ChapaInitResponse
  freshRef : String
  freshId : Nat
  now : Nat
  fixedAmount : Int

/-- Result of one initiate_payment call: resulting store, HTTP result,
effect trace, and the payload delivered to the gateway if a call was made. -/
structure InitResult where
  state : Store
  result : Except HErr PaymentResponse
  effects : List Effect
  sent : Option ChapaInitRequest
deriving Repr

/-- ChapaService.initialize_payment overwrites the amount field of the
outbound payload with str(settings.FIXED_AMOUNT)
(src/app/services/chapa.py line 33). -/
def chapaOutboundPayload (fixedAmount : Int) (req : ChapaInitRequest) : ChapaInitRequest :=
  { req with amount := toString fixedAmount }

/-- The idempotent-replay response built at src/app/routers/payments.py
lines 228-238: current row fields, reference masked, no checkout_url. -/
def replayResponse (ex : Payment) : PaymentResponse :=
  { id := ex.id
    property_id := ex.property_id
    user_id := ex.user_id
    amount := ex.amount
    status := ex.status
    chapa_tx_ref := some maskedRef
    checkout_url := none
    created_at := ex.created_at
    updated_at := ex.updated_at }

/-- The ChapaInitializeRequest the router builds (amount hard-coded to
str(500) at line 247) after ChapaService.initialize_payment has overwritten
the amount with str(settings.FIXED_AMOUNT). -/
def outboundRequest (env : InitEnv) (email : String) (phone : Option String) : ChapaInitRequest :=
  chapaOutboundPayload env.fixedAmount
    { amount := toString (500 : Int)
      currency := "ETB"
      email := email
      phone_number := phone.getD ""
      tx_ref := env.freshRef }

/-- The fresh PENDING row initiate_payment persists
(src/app/routers/payments.py lines 278-285). -/
def newPayment (env : InitEnv) (pc : PaymentCreate) (uid : Nat) : Payment :=
  { id := env.freshId
    request_id := pc.request_id
    property_id := pc.property_id
    user_id := uid
    amount := pc.amount
    status := .PENDING
    chapa_tx_ref := env.freshRef
    failure_reason := none
    created_at := env.now
    updated_at := env.now
    approved_at := none }

/-- The response of a first (non-replayed) successful initiation: the fields
of the fresh row, the unmasked reference, and the gateway checkout URL
(src/app/routers/payments.py lines 294-304). -/
def createdResponse (env : InitEnv) (pc : PaymentCreate) (uid : Nat)
    (url : String) : PaymentResponse :=
  { id := env.freshId
    property_id := pc.property_id
    user_id := uid
    amount := pc.amount
    status := .PENDING
    chapa_tx_ref := some env.freshRef
    checkout_url := some url
    created_at := env.now
    updated_at := env.now }

/-- The body of initiate_payment after the contact details are resolved
(src/app/routers/payments.py lines 215-304): phone precondition, idempotency
check, gateway call with the fixed amount, persist PENDING, respond. The
eff0 argument is the effect trace accumulated by the contact resolution.
When the gateway response carries no checkout_url the logging access
checkout_url[:30] raises after the commit, so the row is kept and the
catch-all handler returns a 500. -/
def initiateFromContact (env : InitEnv) (st : Store) (pc : PaymentCreate)
    (uid : Nat) (email : String) (phone : Option String)
    (eff0 : List Effect) : InitResult :=
  if !(presentStr phone) then
    { state := st
      result := .error ⟨400, "User phone number not provided"⟩
      effects := eff0
      sent := none }
  else
    match lookupByRequestId st pc.request_id with
    | some ex =>
        { state := st
          result := .ok (replayResponse ex)
          effects := eff0 ++ [.storeRead]
          sent := none }
    | none =>
        match env.gatewayInit with
        | .error e =>
            { state := st
              result := .error e
              effects := eff0 ++ [.storeRead, .gatewayInit]
              sent := some (outboundRequest env email phone) }
        | .ok resp =>
            if !(resp.status == "success") then
              { state := st
                result := .error ⟨400, "Payment initialization failed: " ++ resp.message⟩
                effects := eff0 ++ [.storeRead, .gatewayInit]
                sent := some (outboundRequest env email phone) }
            else
              match resp.checkout_url with
              | none =>
                  { state := st ++ [newPayment env pc uid]
                    result := .error ⟨500, "Internal server error"⟩
                    effects := eff0 ++ [.storeRead, .gatewayInit, .storeWrite]
                    sent := some (outboundRequest env email phone) }
              | some url =>
                  { state := st ++ [newPayment env pc uid]
                    result := .ok (createdResponse env pc uid url)
                    effects := eff0 ++ [.storeRead, .gatewayInit, .storeWrite]
                    sent := some (outboundRequest env email phone) }

/-- initiate_payment from src/app/routers/payments.py. The contact details
are resolved first: a Service-authenticated call fetches them remotely from
the user-management service (404 when the lookup fails), an owner call takes
them from the authenticated entity. Only then come the phone precondition,
the idempotency check, the gateway call and the persist. -/
def initiate_payment (env : InitEnv) (st : Store) (pc : PaymentCreate)
    (auth : UserAuthResponse) : InitResult :=
  if auth.role == "Service" then
    match env.userLookup pc.user_id with
    | none =>
        { state := st
          result := .error ⟨404, "User details not found for the provided user_id"⟩
          effects := [.userLookup]
          sent := none }
    | some ud =>
        initiateFromContact env st pc ud.user_id ud.email (some ud.phone_number)
          [.userLookup]
  else
    initiateFromContact env st pc auth.user_id auth.email auth.phone_number []

/-- Whether the contact-resolution prelude of initiate_payment succeeds for
this call (phone present; for Service calls the remote lookup returns
details with a non-empty phone). -/
def contactOk (env : InitEnv) (pc : PaymentCreate) (auth : UserAuthResponse) : Bool :=
  if auth.role == "Service" then
    match env.userLookup pc.user_id with
    | none => false
    | some ud => !(ud.phone_number == "")
  else
    presentStr auth.phone_number

/-! Webhook ingestion: chapa_webhook and verify_webhook_signature. -/

/-- Environment of one chapa_webhook call: the configured webhook secret
(empty string when unset), the HMAC-SHA256 hex digest function (abstract:
secret, then body), the outcome of the independent Chapa verify call, and
the clock. -/
structure VerifyEnv where
  secret : String
  hmacHex : String → String → String
  verify : Except String ChapaVerifyResponse
  now : Nat

/-- ChapaService.verify_webhook_signature from src/app/services/chapa.py:
with no configured secret it returns True (verification skipped); otherwise
it compares the recomputed digest with the received header. -/
def verify_webhook_signature (secret : String) (hmacHex : String → String → String)
    (payload_body : String) (chapa_signature : String) : Bool :=
  if secret == "" then true
  else hmacHex secret payload_body == chapa_signature

/-- A POST webhook body: the exact raw bytes, whether request.json()
succeeds, and the tx_ref and status fields read with .get from the parsed
payload root. -/
structure PostPayload where
  rawBody : String
  parseOk : Bool
  tx_ref : Option String
  status : Option String

/-- The two transports chapa_webhook accepts: a signed POST notification
and an unsigned GET redirect carrying trx_ref and status query parameters. -/
inductive WebhookRequest
  | post (signature : Option String) (payload : PostPayload)
  | get (trx_ref : Option String) (status : Option String)

/-- Result of one chapa_webhook call. -/
structure WebhookResult where
  state : Store
  result : Except HErr String
  effects : List Effect

/-- Python rendering of data.get("status") inside the failure_reason
f-string: None prints as "None". -/
def optStr : Option String → String
  | none => "None"
  | some s => s

/-- The row produced from a PENDING payment by the verify branch of
chapa_webhook (src/app/routers/payments.py lines 438-459): SUCCESS exactly
when the verify call returned with status "success" and data.status
"success"; otherwise FAILED with the recorded failure_reason; approved_at
is set only on SUCCESS. -/
def ingestOutcome (env : VerifyEnv) (fp : Payment) : Payment :=
  match env.verify with
  | .ok v =>
      if v.status == "success" && v.data_status == some "success" then
        { fp with status := .SUCCESS, updated_at := env.now, approved_at := some env.now }
      else
        { fp with status := .FAILED, updated_at := env.now
                  failure_reason := some ("Chapa verification failed: " ++ v.message
                    ++ " - " ++ optStr v.data_status) }
  | .error e =>
      { fp with status := .FAILED, updated_at := env.now
                failure_reason := some ("Chapa verification API error: " ++ e) }

/-- Whether the independent verify outcome counts as success for the
transition (both the API status and the gateway-reported data status must
read "success"). -/
def verifySuccess : Except String ChapaVerifyResponse → Bool
  | .ok v => v.status == "success" && v.data_status == some "success"
  | .error _ => false

/-- chapa_webhook after field extraction (src/app/routers/payments.py lines
402-496): missing tx_ref or status rejects as malformed; unknown reference
is a no-op responding success; a non-PENDING payment is a no-op responding
success without re-querying the gateway; a PENDING payment is re-verified
with Chapa and transitioned, with a downstream notification on SUCCESS. -/
def webhookCore (env : VerifyEnv) (st : Store)
    (txRef statusField : Option String) : WebhookResult :=
  if !(presentStr txRef) || !(presentStr statusField) then
    { state := st
      result := .error ⟨400, "Invalid webhook/redirect payload"⟩
      effects := [] }
  else
    match lookupByTxRef st (txRef.getD "") with
    | none =>
        { state := st
          result := .ok "Payment not found, no action taken"
          effects := [.storeRead] }
    | some fp =>
        if fp.status != PaymentStatus.PENDING then
          { state := st
            result := .ok "Payment already processed, no action taken"
            effects := [.storeRead] }
        else
          let newP := ingestOutcome env fp
          { state := updateById st fp.id newP
            result := .ok "Webhook processed successfully"
            effects :=
              if newP.status = PaymentStatus.SUCCESS then
                [.storeRead, .gatewayVerify, .storeWrite, .notify]
              else
                [.storeRead, .gatewayVerify, .storeWrite] }

/-- chapa_webhook from src/app/routers/payments.py. A POST must carry a
signature header that verifies over the exact raw body before the body is
parsed; failure rejects with 401 touching nothing. A GET redirect is
unsigned and goes straight to field extraction. -/
def chapa_webhook (env : VerifyEnv) (st : Store) (req : WebhookRequest) : WebhookResult :=
  match req with
  | .post sig payload =>
      if !(presentStr sig) then
        { state := st
          result := .error ⟨401, "X-Chapa-Signature header missing"⟩
          effects := [] }
      else if !(verify_webhook_signature env.secret env.hmacHex
                  payload.rawBody (sig.getD "")) then
        { state := st
          result := .error ⟨401, "Invalid webhook signature"⟩
          effects := [] }
      else if !payload.parseOk then
        { state := st
          result := .error ⟨400, "Invalid JSON payload"⟩
          effects := [] }
      else
        webhookCore env st payload.tx_ref payload.status
  | .get trx_ref statusField =>
      webhookCore env st trx_ref statusField

/-! Timeout sweep: timeout_pending_payments. -/

/-- settings.PAYMENT_TIMEOUT_DAYS from src/app/config.py. -/
def PAYMENT_TIMEOUT_DAYS : Nat := 7

/-- The per-row action of the timeout sweep: a PENDING payment created
strictly before the cutoff (now minus the configured timeout) is marked
FAILED with updated_at refreshed; every other row is untouched. The code
sets neither failure_reason nor approved_at here
(src/app/routers/payments.py lines 58-61). -/
def sweepPayment (now cutoff : Nat) (p : Payment) : Payment :=
  if p.status = PaymentStatus.PENDING ∧ p.created_at < cutoff then
    { p with status := .FAILED, updated_at := now }
  else p

/-- timeout_pending_payments from src/app/routers/payments.py: select the
PENDING rows older than the cutoff, mark each FAILED, commit. The cutoff
argument stands for datetime.now() minus PAYMENT_TIMEOUT_DAYS days. -/
def timeout_pending_payments (now cutoff : Nat) (st : Store) : Store :=
  st.map (sweepPayment now cutoff)

/-! Authentication gate: src/app/dependencies/auth.py. -/

/-- Environment of the authentication dependencies: the configured
PAYMENT_SERVICE_API_KEY, the outcome of get_current_user for a given raw
bearer token (cache, local JWT validation and the remote verification
collapsed into one oracle), and the fresh placeholder user id uuid4()
generates for the synthesized service identity. -/
structure AuthEnv where
  configuredKey : String
  jwtResolve : String → Except HErr UserAuthResponse
  freshUserId : Nat

/-- The synthesized service identity get_authenticated_entity returns for
API-key callers. -/
def serviceIdentity (fresh : Nat) : UserAuthResponse :=
  { user_id := fresh
    role := "Service"
    email := "service@example.com"
    phone_number := some "+251900000000"
    preferred_language := some "en" }

/-- get_api_key: absent header resolves to none; the configured key
resolves; any other key raises 401. -/
def get_api_key (env : AuthEnv) (api_key : Option String) : Except HErr (Option String) :=
  match api_key with
  | none => .ok none
  | some k =>
      if k == env.configuredKey then .ok (some k)
      else .error ⟨401, "Invalid API Key"⟩

/-- get_optional_user: absent token resolves to none; otherwise the outcome
of get_current_user. -/
def get_optional_user (env : AuthEnv) (token : Option String) :
    Except HErr (Option UserAuthResponse) :=
  match token with
  | none => .ok none
  | some t => (env.jwtResolve t).map some

/-- get_authenticated_entity: both dependencies are resolved (in parameter
order, API key first) before the body runs, so an error from either aborts
the request; the body then prefers the API-key identity, falls back to the
JWT identity, and rejects with 401 when neither resolved. -/
def get_authenticated_entity (env : AuthEnv) (api_key token : Option String) :
    Except HErr UserAuthResponse :=
  match get_api_key env api_key with
  | .error e => .error e
  | .ok apiKeyResolved =>
      match get_optional_user env token with
      | .error e => .error e
      | .ok ownerFromJwt =>
          match apiKeyResolved with
          | some _ => .ok (serviceIdentity env.freshUserId)
          | none =>
              match ownerFromJwt with
              | some u => .ok u
              | none =>
                  .error ⟨401, "Not authenticated: Provide a valid API Key or Owner JWT"⟩

/-! The approved_at invariant. -/

/-- The data-model invariant: approved_at is non-null exactly on SUCCESS
rows. -/
def approvedInv (st : Store) : Prop :=
  ∀ p ∈ st, (p.approved_at ≠ none ↔ p.status = PaymentStatus.SUCCESS)

instance (st : Store) : Decidable (approvedInv st) := by
  unfold approvedInv
  infer_instance

/-! Shape lemmas about the operations. -/

/-- When the contact stage passed and the request_id already has a row,
initiateFromContact returns the masked replay with no further effects. -/
lemma initiateFromContact_replay (env : InitEnv) (st : Store) (pc : PaymentCreate)
    (uid : Nat) (email : String) (phone : Option String) (eff0 : List Effect)
    (ex : Payment) (hphone : presentStr phone = true)
    (hex : lookupByRequestId st pc.request_id = some ex) :
    initiateFromContact env st pc uid email phone eff0 =
      { state := st
        result := .ok (replayResponse ex)
        effects := eff0 ++ [.storeRead]
        sent := none } := by
  unfold initiateFromContact
  simp [hphone, hex]

/-- initiate_payment on a call whose contact-resolution prelude succeeds and
whose request_id already has a row: the masked replay, the store untouched,
nothing sent to the gateway, and at most a user lookup plus the idempotency
read as effects. -/
lemma initiate_replay (env : InitEnv) (st : Store) (pc : PaymentCreate)
    (auth : UserAuthResponse) (ex : Payment)
    (hc : contactOk env pc auth = true)
    (hex : lookupByRequestId st pc.request_id = some ex) :
    ∃ eff0, (eff0 = [] ∨ eff0 = [Effect.userLookup]) ∧
      initiate_payment env st pc auth =
        { state := st
          result := .ok (replayResponse ex)
          effects := eff0 ++ [.storeRead]
          sent := none } := by
  unfold contactOk at hc
  unfold initiate_payment
  by_cases hrole : (auth.role == "Service") = true
  · rw [if_pos hrole] at hc ⊢
    cases hul : env.userLookup pc.user_id with
    | none => rw [hul] at hc; simp at hc
    | some ud =>
        rw [hul] at hc
        refine ⟨[Effect.userLookup], Or.inr rfl, ?_⟩
        exact initiateFromContact_replay _ _ _ _ _ _ _ _ (by simpa [presentStr] using hc) hex
  · rw [if_neg hrole] at hc ⊢
    exact ⟨[], Or.inl rfl, initiateFromContact_replay _ _ _ _ _ _ _ _ hc hex⟩

/-- Every initiateFromContact call either leaves the store unchanged or
appends exactly the fresh PENDING row. -/
lemma initiateFromContact_state_cases (env : InitEnv) (st : Store) (pc : PaymentCreate)
    (uid : Nat) (email : String) (phone : Option String) (eff0 : List Effect) :
    (initiateFromContact env st pc uid email phone eff0).state = st ∨
    (initiateFromContact env st pc uid email phone eff0).state
      = st ++ [newPayment env pc uid] := by
  unfold initiateFromContact
  split
  · exact Or.inl rfl
  split
  · exact Or.inl rfl
  split
  · exact Or.inl rfl
  split
  · exact Or.inl rfl
  split
  · exact Or.inr rfl
  · exact Or.inr rfl

/-- Every initiate_payment call either leaves the store unchanged or appends
exactly one fresh PENDING row carrying the caller-supplied amount. -/
lemma initiate_state_cases (env : InitEnv) (st : Store) (pc : PaymentCreate)
    (auth : UserAuthResponse) :
    (initiate_payment env st pc auth).state = st ∨
    ∃ uid, (initiate_payment env st pc auth).state = st ++ [newPayment env pc uid] := by
  unfold initiate_payment
  split
  · cases hul : env.userLookup pc.user_id with
    | none => exact Or.inl rfl
    | some ud =>
        rcases initiateFromContact_state_cases env st pc ud.user_id ud.email
          (some ud.phone_number) [Effect.userLookup] with h | h
        · exact Or.inl h
        · exact Or.inr ⟨ud.user_id, h⟩
  · rcases initiateFromContact_state_cases env st pc auth.user_id auth.email
      auth.phone_number [] with h | h
    · exact Or.inl h
    · exact Or.inr ⟨auth.user_id, h⟩

/-- When the request_id has no row yet and initiateFromContact answers 200,
the store gained exactly the fresh row and the response is the created view. -/
lemma initiateFromContact_created (env : InitEnv) (st : Store) (pc : PaymentCreate)
    (uid : Nat) (email : String) (phone : Option String) (eff0 : List Effect)
    (resp : PaymentResponse)
    (hnone : lookupByRequestId st pc.request_id = none)
    (hok : (initiateFromContact env st pc uid email phone eff0).result = .ok resp) :
    (initiateFromContact env st pc uid email phone eff0).state
      = st ++ [newPayment env pc uid] ∧
    ∃ url, resp = createdResponse env pc uid url := by
  unfold initiateFromContact at hok ⊢
  by_cases hph : presentStr phone = true
  case neg =>
    rw [if_pos (by simpa using hph)] at hok
    simp at hok
  case pos =>
    rw [if_neg (by simpa using hph), hnone] at hok ⊢
    cases hg : env.gatewayInit with
    | error e => rw [hg] at hok; simp at hok
    | ok r =>
        rw [hg] at hok
        dsimp only at hok ⊢
        by_cases hs : (r.status == "success") = true
        case neg =>
          rw [if_pos (by simpa using hs)] at hok
          simp at hok
        case pos =>
          rw [if_neg (by simpa using hs)] at hok ⊢
          cases hcu : r.checkout_url with
          | none => rw [hcu] at hok; simp at hok
          | some url =>
              rw [hcu] at hok
              dsimp only at hok ⊢
              exact ⟨rfl, url, (Except.ok.inj hok).symm⟩

/-- When the request_id has no row yet and initiate_payment answers 200,
the store gained exactly the fresh PENDING row whose id and status the
response reports. -/
lemma initiate_created (env : InitEnv) (st : Store) (pc : PaymentCreate)
    (auth : UserAuthResponse) (resp : PaymentResponse)
    (hnone : lookupByRequestId st pc.request_id = none)
    (hok : (initiate_payment env st pc auth).result = .ok resp) :
    ∃ uid, (initiate_payment env st pc auth).state = st ++ [newPayment env pc uid] ∧
      resp.id = env.freshId ∧ resp.status = PaymentStatus.PENDING := by
  unfold initiate_payment at hok ⊢
  split at hok
  · rename_i hrole
    rw [if_pos hrole]
    cases hul : env.userLookup pc.user_id with
    | none => rw [hul] at hok; simp at hok
    | some ud =>
        rw [hul] at hok
        dsimp only at hok ⊢
        obtain ⟨hst, url, hresp⟩ :=
          initiateFromContact_created env st pc ud.user_id ud.email
            (some ud.phone_number) [Effect.userLookup] resp hnone hok
        exact ⟨ud.user_id, hst, by rw [hresp]; rfl, by rw [hresp]; rfl⟩
  · rename_i hrole
    rw [if_neg hrole]
    obtain ⟨hst, url, hresp⟩ :=
      initiateFromContact_created env st pc auth.user_id auth.email
        auth.phone_number [] resp hnone hok
    exact ⟨auth.user_id, hst, by rw [hresp]; rfl, by rw [hresp]; rfl⟩

/-- A row whose id differs from the committed one survives the commit
unchanged. -/
lemma mem_updateById_of_ne (st : Store) (pid : Nat) (newP : Payment)
    {p : Payment} (hp : p ∈ st) (hne : p.id ≠ pid) :
    p ∈ updateById st pid newP := by
  unfold updateById
  exact List.mem_map.mpr ⟨p, hp, by simp [hne]⟩

/-- The transitioned row: SUCCESS exactly when the independent verify
outcome counts as success. -/
lemma ingestOutcome_success_iff (env : VerifyEnv) (fp : Payment) :
    ((ingestOutcome env fp).status = PaymentStatus.SUCCESS
      ↔ verifySuccess env.verify = true) := by
  unfold ingestOutcome verifySuccess
  cases env.verify with
  | ok v =>
      by_cases h : (v.status == "success" && v.data_status == some "success") = true
      · simp [h]
      · simp [h, Bool.not_eq_true] at *
  | error e => simp

/-- The transitioned row when the verify outcome does not count as success:
FAILED with a non-null failure_reason. -/
lemma ingestOutcome_failed (env : VerifyEnv) (fp : Payment)
    (h : verifySuccess env.verify ≠ true) :
    (ingestOutcome env fp).status = PaymentStatus.FAILED ∧
    (ingestOutcome env fp).failure_reason ≠ none := by
  unfold ingestOutcome
  unfold verifySuccess at h
  cases hv : env.verify with
  | ok v =>
      rw [hv] at h
      simp only [ne_eq, Bool.not_eq_true] at h
      simp [h]
  | error e => simp

/-- The transitioned row keeps the approved_at discipline: given the source
row had approved_at null, the result has approved_at non-null exactly on
SUCCESS. -/
lemma ingestOutcome_approved (env : VerifyEnv) (fp : Payment)
    (h : fp.approved_at = none) :
    ((ingestOutcome env fp).approved_at ≠ none
      ↔ (ingestOutcome env fp).status = PaymentStatus.SUCCESS) := by
  unfold ingestOutcome
  cases env.verify with
  | ok v =>
      by_cases hc : (v.status == "success" && v.data_status == some "success") = true
      · simp [hc]
      · simp [hc, h]
  | error e => simp [h]

/-- Every chapa_webhook call either leaves the store unchanged or commits
exactly the verify-decided transition of one PENDING row found by its
reference. -/
lemma webhookCore_state_cases (env : VerifyEnv) (st : Store)
    (txRef statusField : Option String) :
    (webhookCore env st txRef statusField).state = st ∨
    ∃ fp, fp ∈ st ∧ fp.status = PaymentStatus.PENDING ∧
      (webhookCore env st txRef statusField).state
        = updateById st fp.id (ingestOutcome env fp) := by
  unfold webhookCore
  split
  · exact Or.inl rfl
  split
  · exact Or.inl rfl
  rename_i fp hfp
  split
  · exact Or.inl rfl
  · rename_i hpend
    refine Or.inr ⟨fp, List.mem_of_find?_eq_some hfp, ?_, rfl⟩
    simpa using hpend

/-- Same shape statement lifted to both webhook transports. -/
lemma chapa_webhook_state_cases (env : VerifyEnv) (st : Store) (req : WebhookRequest) :
    (chapa_webhook env st req).state = st ∨
    ∃ fp, fp ∈ st ∧ fp.status = PaymentStatus.PENDING ∧
      (chapa_webhook env st req).state
        = updateById st fp.id (ingestOutcome env fp) := by
  cases req with
  | post sig payload =>
      unfold chapa_webhook
      dsimp only
      split
      · exact Or.inl rfl
      split
      · exact Or.inl rfl
      split
      · exact Or.inl rfl
      · exact webhookCore_state_cases env st payload.tx_ref payload.status
  | get trx_ref statusField =>
      exact webhookCore_state_cases env st trx_ref statusField

/-- webhookCore on a found PENDING row: the commit of the verify-decided
transition, responding success, re-querying the gateway once. -/
lemma webhookCore_pending (env : VerifyEnv) (st : Store) (ref s : String)
    (fp : Payment) (href : ref ≠ "") (hs : s ≠ "")
    (hfind : lookupByTxRef st ref = some fp)
    (hpend : fp.status = PaymentStatus.PENDING) :
    webhookCore env st (some ref) (some s) =
      { state := updateById st fp.id (ingestOutcome env fp)
        result := .ok "Webhook processed successfully"
        effects :=
          if (ingestOutcome env fp).status = PaymentStatus.SUCCESS then
            [.storeRead, .gatewayVerify, .storeWrite, .notify]
          else
            [.storeRead, .gatewayVerify, .storeWrite] } := by
  unfold webhookCore
  simp [presentStr, href, hs, hfind, hpend]

/-- webhookCore on a found non-PENDING row: a pure no-op responding
success, with only the lookup as effect. -/
lemma webhookCore_terminal (env : VerifyEnv) (st : Store) (ref s : String)
    (fp : Payment) (href : ref ≠ "") (hs : s ≠ "")
    (hfind : lookupByTxRef st ref = some fp)
    (hterm : fp.status ≠ PaymentStatus.PENDING) :
    webhookCore env st (some ref) (some s) =
      { state := st
        result := .ok "Payment already processed, no action taken"
        effects := [.storeRead] } := by
  unfold webhookCore
  simp [presentStr, href, hs, hfind, hterm]

/-! Claim theorems. -/

/-- Claim C1: for every valid initiation request, calling Initiate twice
with the same request_id yields exactly one persisted Payment row, and the
two responses agree on id and status, the replayed response carrying the
gateway reference masked as the fixed placeholder string. -/
theorem C1_initiate_idempotent (env1 env2 : InitEnv) (st : Store)
    (pc : PaymentCreate) (auth : UserAuthResponse) (resp1 : PaymentResponse)
    (hnone : lookupByRequestId st pc.request_id = none)
    (h1 : (initiate_payment env1 st pc auth).result = .ok resp1)
    (hc2 : contactOk env2 pc auth = true) :
    ∃ resp2,
      (initiate_payment env2 (initiate_payment env1 st pc auth).state pc auth).result
        = .ok resp2 ∧
      (initiate_payment env2 (initiate_payment env1 st pc auth).state pc auth).state
        = (initiate_payment env1 st pc auth).state ∧
      ((initiate_payment env1 st pc auth).state.countP
          (fun p => p.request_id == pc.request_id)) = 1 ∧
      resp2.id = resp1.id ∧ resp2.status = resp1.status ∧
      resp2.chapa_tx_ref = some maskedRef := by
  obtain ⟨uid, hst, hid, hstat⟩ := initiate_created env1 st pc auth resp1 hnone h1
  have hfind : lookupByRequestId (st ++ [newPayment env1 pc uid]) pc.request_id
      = some (newPayment env1 pc uid) := by
    unfold lookupByRequestId at hnone ⊢
    rw [List.find?_append, hnone]
    simp [newPayment]
  obtain ⟨eff0, heff, heq⟩ :=
    initiate_replay env2 (initiate_payment env1 st pc auth).state pc auth
      (newPayment env1 pc uid) hc2 (by rw [hst]; exact hfind)
  refine ⟨replayResponse (newPayment env1 pc uid), ?_, ?_, ?_, ?_, ?_, rfl⟩
  · rw [heq]
  · rw [heq]
  · rw [hst, List.countP_append]
    have h0 : st.countP (fun p => p.request_id == pc.request_id) = 0 := by
      refine List.countP_eq_zero.mpr ?_
      intro a ha
      have := List.find?_eq_none.mp hnone a ha
      simpa using this
    rw [h0]
    simp [newPayment]
  · simp [replayResponse, newPayment, hid]
  · simp [replayResponse, newPayment, hstat]

def wAuth : UserAuthResponse :=
  { user_id := 3
    role := "Owner"
    email := "owner@mail.com"
    phone_number := some "0911000000"
    preferred_language := some "en" }

def wCreate : PaymentCreate :=
  { request_id := 9, property_id := 2, user_id := 3, amount := 500 }

def wEnvA : InitEnv :=
  { userLookup := fun _ => none
    gatewayInit := .ok
      { message := "Hosted Link"
        status := "success"
        checkout_url := some "https://checkout.chapa.co/pay/abc" }
    freshRef := "tx-a"
    freshId := 5
    now := 10
    fixedAmount := 500 }

def wEnvB : InitEnv :=
  { wEnvA with freshRef := "tx-b", freshId := 6, now := 20 }

def wResp1 : PaymentResponse :=
  createdResponse wEnvA wCreate 3 "https://checkout.chapa.co/pay/abc"

/-- Witness for C1 at a concrete valid request against an empty store. -/
theorem C1_witness :
    ∃ resp2,
      (initiate_payment wEnvB (initiate_payment wEnvA [] wCreate wAuth).state wCreate wAuth).result
        = .ok resp2 ∧
      (initiate_payment wEnvB (initiate_payment wEnvA [] wCreate wAuth).state wCreate wAuth).state
        = (initiate_payment wEnvA [] wCreate wAuth).state ∧
      ((initiate_payment wEnvA [] wCreate wAuth).state.countP
          (fun p => p.request_id == wCreate.request_id)) = 1 ∧
      resp2.id = wResp1.id ∧ resp2.status = wResp1.status ∧
      resp2.chapa_tx_ref = some maskedRef :=
  C1_initiate_idempotent wEnvA wEnvB [] wCreate wAuth wResp1 rfl rfl rfl

/-- Claim C2: in Ingest, a PENDING payment found by its gateway reference
transitions to SUCCESS exactly when the independent verify call succeeds
with the gateway status field reading "success"; any other combination, or
a verify failure, transitions it to FAILED with a non-null failure_reason;
and the self-reported callback status never determines the outcome. -/
theorem C2_verify_decides (env : VerifyEnv) (st : Store) (ref s1 s2 : String)
    (fp : Payment)
    (href : ref ≠ "") (hs1 : s1 ≠ "") (hs2 : s2 ≠ "")
    (hfind : lookupByTxRef st ref = some fp)
    (hpend : fp.status = PaymentStatus.PENDING) :
    (chapa_webhook env st (.get (some ref) (some s1))).state
        = updateById st fp.id (ingestOutcome env fp) ∧
    ingestOutcome env fp ∈ (chapa_webhook env st (.get (some ref) (some s1))).state ∧
    ((ingestOutcome env fp).status = PaymentStatus.SUCCESS
        ↔ verifySuccess env.verify = true) ∧
    (verifySuccess env.verify ≠ true →
        (ingestOutcome env fp).status = PaymentStatus.FAILED ∧
        (ingestOutcome env fp).failure_reason ≠ none) ∧
    chapa_webhook env st (.get (some ref) (some s1))
        = chapa_webhook env st (.get (some ref) (some s2)) := by
  have h1 := webhookCore_pending env st ref s1 fp href hs1 hfind hpend
  have h2 := webhookCore_pending env st ref s2 fp href hs2 hfind hpend
  have hmem : fp ∈ st := List.mem_of_find?_eq_some hfind
  refine ⟨?_, ?_, ingestOutcome_success_iff env fp,
    fun h => ingestOutcome_failed env fp h, ?_⟩
  · show (webhookCore env st (some ref) (some s1)).state = _
    rw [h1]
  · show ingestOutcome env fp ∈ (webhookCore env st (some ref) (some s1)).state
    rw [h1]
    exact List.mem_map.mpr ⟨fp, hmem, by simp⟩
  · show webhookCore env st (some ref) (some s1) = webhookCore env st (some ref) (some s2)
    rw [h1, h2]

def wPending : Payment :=
  { id := 1
    request_id := 11
    property_id := 21
    user_id := 31
    amount := 500
    status := PaymentStatus.PENDING
    chapa_tx_ref := "tx-1"
    failure_reason := none
    created_at := 0
    updated_at := 0
    approved_at := none }

def wVerifyEnv : VerifyEnv :=
  { secret := "whsec"
    hmacHex := fun sec body => sec ++ "|" ++ body
    verify := .ok { message := "ok", status := "success", data_status := some "success" }
    now := 50 }

/-- Witness for C2 at a concrete PENDING row and a successful verify. -/
theorem C2_witness :
    (chapa_webhook wVerifyEnv [wPending] (.get (some "tx-1") (some "success"))).state
        = updateById [wPending] wPending.id (ingestOutcome wVerifyEnv wPending) ∧
    ingestOutcome wVerifyEnv wPending
        ∈ (chapa_webhook wVerifyEnv [wPending] (.get (some "tx-1") (some "success"))).state ∧
    ((ingestOutcome wVerifyEnv wPending).status = PaymentStatus.SUCCESS
        ↔ verifySuccess wVerifyEnv.verify = true) ∧
    (verifySuccess wVerifyEnv.verify ≠ true →
        (ingestOutcome wVerifyEnv wPending).status = PaymentStatus.FAILED ∧
        (ingestOutcome wVerifyEnv wPending).failure_reason ≠ none) ∧
    chapa_webhook wVerifyEnv [wPending] (.get (some "tx-1") (some "success"))
        = chapa_webhook wVerifyEnv [wPending] (.get (some "tx-1") (some "failed")) :=
  C2_verify_decides wVerifyEnv [wPending] "tx-1" "success" "failed" wPending
    (by decide) (by decide) (by decide) rfl rfl

/-- Claim C3: once a Payment is terminal (SUCCESS or FAILED), no Ingest or
SweepTimeouts call changes its status, failure_reason, or approved_at: an
Ingest addressing a non-PENDING payment is a no-op responding success
without re-querying the gateway, and the sweep leaves every non-PENDING row
untouched. -/
theorem C3_terminal_frozen (env : VerifyEnv) (st : Store) (req : WebhookRequest)
    (now cutoff : Nat) (ref s : String) (p : Payment)
    (hp : p ∈ st) (hterm : p.status ≠ PaymentStatus.PENDING)
    (hid : ∀ q ∈ st, q.id = p.id → q = p) :
    p ∈ (chapa_webhook env st req).state ∧
    sweepPayment now cutoff p = p ∧
    p ∈ timeout_pending_payments now cutoff st ∧
    (ref ≠ "" → s ≠ "" → lookupByTxRef st ref = some p →
      chapa_webhook env st (.get (some ref) (some s)) =
        { state := st
          result := .ok "Payment already processed, no action taken"
          effects := [Effect.storeRead] }) := by
  have hsweep : sweepPayment now cutoff p = p := by
    unfold sweepPayment
    rw [if_neg]
    rintro ⟨hpend, _⟩
    exact hterm hpend
  refine ⟨?_, hsweep, ?_, ?_⟩
  · rcases chapa_webhook_state_cases env st req with h | ⟨fp, hfp, hfpend, h⟩
    · rw [h]; exact hp
    · rw [h]
      refine mem_updateById_of_ne _ _ _ hp ?_
      intro hidp
      have : fp = p := hid fp hfp hidp.symm
      rw [this] at hfpend
      exact hterm hfpend
  · unfold timeout_pending_payments
    exact List.mem_map.mpr ⟨p, hp, hsweep⟩
  · intro h1 h2 h3
    show webhookCore env st (some ref) (some s) = _
    exact webhookCore_terminal env st ref s p h1 h2 h3 hterm

def wDone : Payment :=
  { wPending with
    id := 2
    request_id := 12
    chapa_tx_ref := "tx-2"
    status := PaymentStatus.SUCCESS
    approved_at := some 5 }

/-- Witness for C3 at a concrete SUCCESS row addressed by a webhook that
reports the opposite status. -/
theorem C3_witness :
    wDone ∈ (chapa_webhook wVerifyEnv [wDone] (.get (some "tx-2") (some "failed"))).state ∧
    sweepPayment 100 50 wDone = wDone ∧
    wDone ∈ timeout_pending_payments 100 50 [wDone] ∧
    ("tx-2" ≠ "" → "failed" ≠ "" → lookupByTxRef [wDone] "tx-2" = some wDone →
      chapa_webhook wVerifyEnv [wDone] (.get (some "tx-2") (some "failed")) =
        { state := [wDone]
          result := .ok "Payment already processed, no action taken"
          effects := [Effect.storeRead] }) :=
  C3_terminal_frozen wVerifyEnv [wDone] (.get (some "tx-2") (some "failed"))
    100 50 "tx-2" "failed" wDone (by decide) (by decide) (by decide)

/-- Claim C4: a POST callback whose signature header is absent, or whose
HMAC-SHA256 over the exact raw body does not match the header, is rejected
with 401 before any parsing, with no Payment row read or written (the
webhook secret being configured). -/
theorem C4_signature_rejects (env : VerifyEnv) (st : Store)
    (payload : PostPayload) (sig : Option String)
    (hsecret : env.secret ≠ "")
    (hbad : ∀ s, sig = some s → env.hmacHex env.secret payload.rawBody ≠ s) :
    (chapa_webhook env st (.post sig payload)).state = st ∧
    (chapa_webhook env st (.post sig payload)).effects = [] ∧
    ∃ e, (chapa_webhook env st (.post sig payload)).result = .error e ∧
      e.code = 401 := by
  cases sig with
  | none =>
      exact ⟨rfl, rfl, ⟨401, "X-Chapa-Signature header missing"⟩, rfl, rfl⟩
  | some s =>
      by_cases hse : s = ""
      · subst hse
        exact ⟨rfl, rfl, ⟨401, "X-Chapa-Signature header missing"⟩, rfl, rfl⟩
      · have hver : verify_webhook_signature env.secret env.hmacHex
            payload.rawBody ((some s).getD "") = false := by
          unfold verify_webhook_signature
          rw [if_neg (by simpa using hsecret)]
          simpa using hbad s rfl
        have heq : chapa_webhook env st (.post (some s) payload)
            = { state := st
                result := .error ⟨401, "Invalid webhook signature"⟩
                effects := [] } := by
          unfold chapa_webhook
          dsimp only
          rw [if_neg (by simp [presentStr, hse]), if_pos (by rw [hver]; rfl)]
        rw [heq]
        exact ⟨rfl, rfl, ⟨401, "Invalid webhook signature"⟩, rfl, rfl⟩

def wPostPayload : PostPayload :=
  { rawBody := "raw-bytes"
    parseOk := true
    tx_ref := some "tx-1"
    status := some "success" }

/-- Witness for C4 at a concrete mismatched signature. -/
theorem C4_witness :
    (chapa_webhook wVerifyEnv [wPending] (.post (some "nope") wPostPayload)).state
        = [wPending] ∧
    (chapa_webhook wVerifyEnv [wPending] (.post (some "nope") wPostPayload)).effects = [] ∧
    ∃ e, (chapa_webhook wVerifyEnv [wPending] (.post (some "nope") wPostPayload)).result
        = .error e ∧ e.code = 401 :=
  C4_signature_rejects wVerifyEnv [wPending] wPostPayload (some "nope")
    (by decide) (by intro s hs; cases hs; decide)

/-- Claim C5, counterexample: the sweep marks a stale PENDING payment
FAILED but never writes failure_reason, so the claimed non-null
failure_reason (reason "timed out") is refuted: after the sweep the row has
status FAILED and failure_reason still null. -/
theorem C5_counterexample :
    timeout_pending_payments 100 50 [wPending]
      = [{ wPending with status := PaymentStatus.FAILED, updated_at := 100 }] ∧
    ({ wPending with status := PaymentStatus.FAILED, updated_at := 100 } : Payment).failure_reason
      = none ∧
    wPending.status = PaymentStatus.PENDING ∧ wPending.created_at < 50 := by
  refine ⟨?_, rfl, rfl, by decide⟩
  decide

/-- Claim C5 as amended: SweepTimeouts transitions every PENDING payment
older than the cutoff to FAILED, leaving failure_reason unchanged (so null
unless previously set), and is a no-op on every younger payment and on
every non-PENDING payment. -/
theorem C5_sweep_amended (now cutoff : Nat) (st : Store) (p : Payment)
    (hp : p ∈ st) :
    (p.status = PaymentStatus.PENDING → p.created_at < cutoff →
      (sweepPayment now cutoff p).status = PaymentStatus.FAILED ∧
      (sweepPayment now cutoff p).failure_reason = p.failure_reason ∧
      sweepPayment now cutoff p ∈ timeout_pending_payments now cutoff st) ∧
    (¬ p.created_at < cutoff → sweepPayment now cutoff p = p) ∧
    (p.status ≠ PaymentStatus.PENDING → sweepPayment now cutoff p = p) := by
  refine ⟨?_, ?_, ?_⟩
  · intro hpend hold
    have h : sweepPayment now cutoff p
        = { p with status := PaymentStatus.FAILED, updated_at := now } := by
      unfold sweepPayment
      rw [if_pos ⟨hpend, hold⟩]
    refine ⟨by rw [h], by rw [h], ?_⟩
    unfold timeout_pending_payments
    exact List.mem_map.mpr ⟨p, hp, rfl⟩
  · intro hyoung
    unfold sweepPayment
    rw [if_neg]
    rintro ⟨_, hold⟩
    exact hyoung hold
  · intro hterm
    unfold sweepPayment
    rw [if_neg]
    rintro ⟨hpend, _⟩
    exact hterm hpend

/-- Witness for the amended C5 at a concrete stale PENDING row. -/
theorem C5_witness :
    (wPending.status = PaymentStatus.PENDING → wPending.created_at < 50 →
      (sweepPayment 100 50 wPending).status = PaymentStatus.FAILED ∧
      (sweepPayment 100 50 wPending).failure_reason = wPending.failure_reason ∧
      sweepPayment 100 50 wPending ∈ timeout_pending_payments 100 50 [wPending]) ∧
    (¬ wPending.created_at < 50 → sweepPayment 100 50 wPending = wPending) ∧
    (wPending.status ≠ PaymentStatus.PENDING → sweepPayment 100 50 wPending = wPending) :=
  C5_sweep_amended 100 50 [wPending] wPending (by decide)

/-- Claim C6, counterexample: the caller-supplied amount is what gets
persisted. A valid initiation with amount 7 against FIXED_AMOUNT = 500
persists a row whose amount is 7, not the configuration-defined fixed
value, refuting the claim that the persisted amount is not
caller-controlled. -/
theorem C6_counterexample :
    (0 : Int) ≤ (7 : Int) ∧
    wEnvA.fixedAmount = 500 ∧
    (initiate_payment wEnvA [] { wCreate with amount := 7 } wAuth).state
      = [newPayment wEnvA { wCreate with amount := 7 } 3] ∧
    (newPayment wEnvA { wCreate with amount := 7 } 3).amount = 7 ∧
    (7 : Int) ≠ 500 := by
  refine ⟨by decide, rfl, ?_, rfl, by decide⟩
  rfl

/-- Claim C6 as amended: the amount sent to the gateway is always the
configuration-defined fixed value, regardless of the caller-supplied
amount; the amount persisted in the Payment row, however, is the
caller-supplied amount. -/
theorem C6_amounts_amended (env : InitEnv) (st : Store) (pc : PaymentCreate)
    (auth : UserAuthResponse) (req : ChapaInitRequest)
    (hsent : (initiate_payment env st pc auth).sent = some req) :
    req.amount = toString env.fixedAmount ∧
    ∀ p ∈ (initiate_payment env st pc auth).state, p ∈ st ∨ p.amount = pc.amount := by
  constructor
  · have hshape : ∀ email phone eff0 uid,
        (initiateFromContact env st pc uid email phone eff0).sent = none ∨
        ∃ email2 phone2, (initiateFromContact env st pc uid email phone eff0).sent
          = some (outboundRequest env email2 phone2) := by
      intro email phone eff0 uid
      unfold initiateFromContact
      split
      · exact Or.inl rfl
      split
      · exact Or.inl rfl
      split
      · exact Or.inr ⟨email, phone, rfl⟩
      split
      · exact Or.inr ⟨email, phone, rfl⟩
      split
      · exact Or.inr ⟨email, phone, rfl⟩
      · exact Or.inr ⟨email, phone, rfl⟩
    have hsent2 : ∃ email2 phone2, (initiate_payment env st pc auth).sent
        = some (outboundRequest env email2 phone2) := by
      unfold initiate_payment at hsent ⊢
      by_cases hrole : (auth.role == "Service") = true
      · rw [if_pos hrole] at hsent ⊢
        cases hul : env.userLookup pc.user_id with
        | none => rw [hul] at hsent; simp at hsent
        | some ud =>
            rw [hul] at hsent
            dsimp only at hsent ⊢
            rcases hshape ud.email (some ud.phone_number) [Effect.userLookup] ud.user_id
              with h | h
            · rw [h] at hsent; simp at hsent
            · exact h
      · rw [if_neg hrole] at hsent ⊢
        rcases hshape auth.email auth.phone_number [] auth.user_id with h | h
        · rw [h] at hsent; simp at hsent
        · exact h
    obtain ⟨email2, phone2, h⟩ := hsent2
    rw [h] at hsent
    have : req = outboundRequest env email2 phone2 := (Option.some.inj hsent).symm
    rw [this]
    rfl
  · intro p hp
    rcases initiate_state_cases env st pc auth with h | ⟨uid, h⟩
    · rw [h] at hp; exact Or.inl hp
    · rw [h] at hp
      rcases List.mem_append.mp hp with h2 | h2
      · exact Or.inl h2
      · right
        have : p = newPayment env pc uid := by simpa using h2
        rw [this]
        rfl

/-- Witness for the amended C6 at a concrete call whose gateway payload
was captured. -/
theorem C6_witness :
    (outboundRequest wEnvA "owner@mail.com" (some "0911000000")).amount
      = toString wEnvA.fixedAmount ∧
    ∀ p ∈ (initiate_payment wEnvA [] { wCreate with amount := 7 } wAuth).state,
      p ∈ ([] : Store) ∨ p.amount = ({ wCreate with amount := 7 } : PaymentCreate).amount :=
  C6_amounts_amended wEnvA [] { wCreate with amount := 7 } wAuth
    (outboundRequest wEnvA "owner@mail.com" (some "0911000000")) rfl

/-- Claim C7, counterexample: the remote user-detail lookup and the phone
precondition run before the idempotency check, so a replay by a
service-authenticated caller whose user lookup fails performs a remote
lookup and returns 404 instead of the existing view, refuting the claim
that a replayed Initiate performs no user-detail lookup and returns the
view. -/
theorem C7_counterexample :
    lookupByRequestId [{ wPending with request_id := 9 }] 9
      = some { wPending with request_id := 9 } ∧
    (initiate_payment wEnvA [{ wPending with request_id := 9 }] wCreate
        { wAuth with role := "Service" }).result
      = .error ⟨404, "User details not found for the provided user_id"⟩ ∧
    Effect.userLookup ∈ (initiate_payment wEnvA [{ wPending with request_id := 9 }] wCreate
        { wAuth with role := "Service" }).effects := by
  refine ⟨rfl, rfl, ?_⟩
  decide

/-- Claim C7 as amended: once the contact-resolution prelude succeeds (it
runs before the idempotency check and may itself perform a remote
user-detail lookup for service calls), an Initiate whose request_id already
has a persisted Payment returns that view with the store unchanged, makes
no gateway call, sends nothing to the gateway, and performs no store
write. -/
theorem C7_replay_amended (env : InitEnv) (st : Store) (pc : PaymentCreate)
    (auth : UserAuthResponse) (ex : Payment)
    (hc : contactOk env pc auth = true)
    (hex : lookupByRequestId st pc.request_id = some ex) :
    (initiate_payment env st pc auth).state = st ∧
    (initiate_payment env st pc auth).result = .ok (replayResponse ex) ∧
    (initiate_payment env st pc auth).sent = none ∧
    Effect.gatewayInit ∉ (initiate_payment env st pc auth).effects ∧
    Effect.storeWrite ∉ (initiate_payment env st pc auth).effects := by
  obtain ⟨eff0, heff, heq⟩ := initiate_replay env st pc auth ex hc hex
  rcases heff with h | h <;>
    rw [heq, h] <;>
    refine ⟨rfl, rfl, rfl, ?_, ?_⟩ <;>
    simp

/-- Witness for the amended C7 at a concrete replayed request. -/
theorem C7_witness :
    (initiate_payment wEnvA [{ wPending with request_id := 9 }] wCreate wAuth).state
      = [{ wPending with request_id := 9 }] ∧
    (initiate_payment wEnvA [{ wPending with request_id := 9 }] wCreate wAuth).result
      = .ok (replayResponse { wPending with request_id := 9 }) ∧
    (initiate_payment wEnvA [{ wPending with request_id := 9 }] wCreate wAuth).sent = none ∧
    Effect.gatewayInit ∉ (initiate_payment wEnvA [{ wPending with request_id := 9 }] wCreate wAuth).effects ∧
    Effect.storeWrite ∉ (initiate_payment wEnvA [{ wPending with request_id := 9 }] wCreate wAuth).effects :=
  C7_replay_amended wEnvA [{ wPending with request_id := 9 }] wCreate wAuth
    { wPending with request_id := 9 } rfl rfl

def c8User : UserAuthResponse :=
  { user_id := 7
    role := "Owner"
    email := "owner2@mail.com"
    phone_number := some "0911"
    preferred_language := some "en" }

def c8Env : AuthEnv :=
  { configuredKey := "service-key"
    jwtResolve := fun _ => .ok c8User
    freshUserId := 0 }

/-- Claim C8, counterexample: a request carrying an invalid API key
together with a bearer credential that the credential path resolves is
rejected with 401, refuting the claim that the gate yields an identity
whenever one of the two modes resolves. -/
theorem C8_counterexample :
    get_optional_user c8Env (some "token") = .ok (some c8User) ∧
    get_authenticated_entity c8Env (some "wrong-key") (some "token")
      = .error ⟨401, "Invalid API Key"⟩ :=
  ⟨rfl, rfl⟩

/-- Claim C8 as amended: provided every supplied credential is individually
valid (any supplied API key is the configured one, any supplied bearer
credential resolves), the gate tries the API-key path first and yields the
service identity when an API key is supplied, yields the resolved bearer
identity when no API key is supplied, and rejects with Unauthenticated
exactly when neither credential is supplied; an invalid credential of
either mode aborts the request even if the other mode would resolve. -/
theorem C8_gate_amended (env : AuthEnv) (api_key token : Option String)
    (hkey : ∀ k, api_key = some k → k = env.configuredKey)
    (htok : ∀ t, token = some t → ∃ u, env.jwtResolve t = .ok u) :
    (api_key = none → token = none →
      get_authenticated_entity env api_key token
        = .error ⟨401, "Not authenticated: Provide a valid API Key or Owner JWT"⟩) ∧
    (∀ k, api_key = some k →
      get_authenticated_entity env api_key token
        = .ok (serviceIdentity env.freshUserId)) ∧
    (api_key = none → ∀ t u, token = some t → env.jwtResolve t = .ok u →
      get_authenticated_entity env api_key token = .ok u) := by
  refine ⟨?_, ?_, ?_⟩
  · intro hak htk
    subst hak; subst htk
    rfl
  · intro k hak
    subst hak
    have hk := hkey k rfl
    subst hk
    unfold get_authenticated_entity get_api_key
    dsimp only
    rw [if_pos (by simp)]
    cases token with
    | none => rfl
    | some t =>
        obtain ⟨u, hu⟩ := htok t rfl
        unfold get_optional_user
        dsimp only
        rw [hu]
        rfl
  · intro hak t u htk hu
    subst hak; subst htk
    unfold get_authenticated_entity get_api_key get_optional_user
    dsimp only
    rw [hu]
    rfl

/-- Witness for the amended C8: a valid API key yields the service
identity, a resolving bearer credential alone yields its identity, and no
credentials at all yield 401. -/
theorem C8_witness :
    ((none : Option String) = none → (some "token" : Option String) = none →
      get_authenticated_entity c8Env none (some "token")
        = .error ⟨401, "Not authenticated: Provide a valid API Key or Owner JWT"⟩) ∧
    (∀ k, (none : Option String) = some k →
      get_authenticated_entity c8Env none (some "token")
        = .ok (serviceIdentity c8Env.freshUserId)) ∧
    ((none : Option String) = none → ∀ t u, (some "token" : Option String) = some t →
      c8Env.jwtResolve t = .ok u →
      get_authenticated_entity c8Env none (some "token") = .ok u) :=
  C8_gate_amended c8Env none (some "token")
    (fun k hk => by cases hk)
    (fun t ht => ⟨c8User, rfl⟩)

/-- Claim C9: every operation preserves the invariant that approved_at is
non-null exactly on SUCCESS rows: initiation creates PENDING rows with null
approved_at, Ingest sets approved_at exactly on the SUCCESS transition, and
the sweep never touches approved_at while moving PENDING rows (whose
approved_at is null) to FAILED. -/
theorem C9_approved_iff_success (ienv : InitEnv) (venv : VerifyEnv) (st : Store)
    (pc : PaymentCreate) (auth : UserAuthResponse) (req : WebhookRequest)
    (now cutoff : Nat) (hinv : approvedInv st) :
    approvedInv (initiate_payment ienv st pc auth).state ∧
    approvedInv (chapa_webhook venv st req).state ∧
    approvedInv (timeout_pending_payments now cutoff st) := by
  refine ⟨?_, ?_, ?_⟩
  · rcases initiate_state_cases ienv st pc auth with h | ⟨uid, h⟩
    · rw [h]; exact hinv
    · rw [h]
      intro p hp
      rcases List.mem_append.mp hp with h2 | h2
      · exact hinv p h2
      · have : p = newPayment ienv pc uid := by simpa using h2
        rw [this]
        unfold newPayment
        simp
  · rcases chapa_webhook_state_cases venv st req with h | ⟨fp, hfp, hfpend, h⟩
    · rw [h]; exact hinv
    · rw [h]
      intro p hp
      unfold updateById at hp
      obtain ⟨q, hq, hqp⟩ := List.mem_map.mp hp
      by_cases hqid : q.id = fp.id
      · rw [if_pos hqid] at hqp
        rw [← hqp]
        have hfpnone : fp.approved_at = none := by
          have := hinv fp hfp
          by_contra hne
          have := this.mp hne
          rw [this] at hfpend
          cases hfpend
        exact ingestOutcome_approved venv fp hfpnone
      · rw [if_neg hqid] at hqp
        rw [← hqp]
        exact hinv q hq
  · intro p hp
    unfold timeout_pending_payments at hp
    obtain ⟨q, hq, hqp⟩ := List.mem_map.mp hp
    rw [← hqp]
    unfold sweepPayment
    by_cases hc : q.status = PaymentStatus.PENDING ∧ q.created_at < cutoff
    · rw [if_pos hc]
      have hqnone : q.approved_at = none := by
        have := hinv q hq
        by_contra hne
        have h2 := this.mp hne
        rw [h2] at hc
        cases hc.1
      simp [hqnone]
    · rw [if_neg hc]
      exact hinv q hq

/-- Witness for C9 over a concrete two-row store satisfying the
invariant. -/
theorem C9_witness :
    approvedInv (initiate_payment wEnvA [wPending, wDone] wCreate wAuth).state ∧
    approvedInv (chapa_webhook wVerifyEnv [wPending, wDone]
        (.get (some "tx-1") (some "success"))).state ∧
    approvedInv (timeout_pending_payments 100 50 [wPending, wDone]) :=
  C9_approved_iff_success wEnvA wVerifyEnv [wPending, wDone] wCreate wAuth
    (.get (some "tx-1") (some "success")) 100 50 (by decide)

/-- Claim C10: an idempotent replay of Initiate returns a view whose
checkout_url is null — the gateway checkout destination is only ever
returned by the first successful initiation. -/
theorem C10_replay_no_checkout (env : InitEnv) (st : Store) (pc : PaymentCreate)
    (auth : UserAuthResponse) (ex : Payment)
    (hc : contactOk env pc auth = true)
    (hex : lookupByRequestId st pc.request_id = some ex) :
    ∃ resp, (initiate_payment env st pc auth).result = .ok resp ∧
      resp.checkout_url = none := by
  obtain ⟨eff0, heff, heq⟩ := initiate_replay env st pc auth ex hc hex
  rw [heq]
  exact ⟨replayResponse ex, rfl, rfl⟩

/-- Witness for C10 at a concrete replayed request. -/
theorem C10_witness :
    ∃ resp, (initiate_payment wEnvB [{ wPending with request_id := 9 }] wCreate wAuth).result
        = .ok resp ∧ resp.checkout_url = none :=
  C10_replay_no_checkout wEnvB [{ wPending with request_id := 9 }] wCreate wAuth
    { wPending with request_id := 9 } rfl rfl

end PaymentService
